import Mathlib

/-!
Verification development for the aeroblade image-complexity repository.

The embedding models `src/aeroblade/src/aeroblade/complexities.py` and
`src/complexity_thesis/scripts/images_to_dataset.py`.  Image tensors are
modelled as nested lists of rationals in channel-height-width order; the
external numeric libraries (the JPEG codec of torchvision, the
third-party meaningful-complexity estimator, the HTTP and image-file
handling of the utility script) are opaque function parameters.  The
disk cache of joblib is modelled as an explicit association list.
-/

/-- Image (or patch) tensor: shape fields plus pixel data in CHW order,
mirroring the torch tensors that flow through `complexities.py`. -/
structure Img where
  channels : Nat
  height : Nat
  width : Nat
  pix : List (List (List ℚ))
deriving DecidableEq

/-- Pixel access `tensor[c, i, j]` with numpy-style data layout. -/
def Img.px (p : Img) (c i j : Nat) : ℚ :=
  ((p.pix.getD c []).getD i []).getD j 0

/-- Flattened pixel values, the view `patch_np.min()` / `patch_np.max()`
range over in `_compute_meaningful`. -/
def Img.pixList (p : Img) : List ℚ :=
  p.pix.flatten.flatten

/-- Shape fields agree with the nested-list pixel data. -/
def wellFormedImg (p : Img) : Prop :=
  p.pix.length = p.channels ∧
    ∀ ch ∈ p.pix, ch.length = p.height ∧ ∀ row ∈ ch, row.length = p.width

instance (p : Img) : Decidable (wellFormedImg p) := by
  unfold wellFormedImg; infer_instance

/-- Model of `numpy.ndarray.min` (fold of the binary minimum). -/
def npMin : List ℚ → Option ℚ
  | [] => none
  | x :: xs => some (xs.foldl min x)

/-- Model of `numpy.ndarray.max` (fold of the binary maximum). -/
def npMax : List ℚ → Option ℚ
  | [] => none
  | x :: xs => some (xs.foldl max x)

/-- Uniformity test `patch_np.min() == patch_np.max()` from
`_compute_meaningful` (complexities.py line 207). -/
def isUniform (p : Img) : Bool :=
  decide (npMin p.pixList = npMax p.pixList)

/-- Sub-image of size `size × size` whose top-left corner sits at
`(i0, j0)`, keeping all channels. -/
def subImg (img : Img) (i0 j0 size : Nat) : Img :=
  ⟨img.channels, size, size,
    img.pix.map (fun ch =>
      (List.range size).map (fun i =>
        (List.range size).map (fun j => (ch.getD (i0 + i) []).getD (j0 + j) 0)))⟩

/-- Modelled from the spec: `aeroblade.image.extract_patches` is not under
`src/`.  Per spec section 4.1 it slides a `size × size` window with the given
stride over both spatial dimensions, row-major, dropping partial border
windows, and fails if `size` exceeds the smaller image dimension. -/
def extract_patches (img : Img) (size stride : Nat) : Except String (List Img) :=
  if size > min img.height img.width then
    Except.error "extract_patches: patch size exceeds image dimensions"
  else
    Except.ok
      (((List.range ((img.height - size) / stride + 1)).map (fun bi =>
        (List.range ((img.width - size) / stride + 1)).map (fun bj =>
          subImg img (bi * stride) (bj * stride) size))).flatten)

/-- Per-image patch list: `[tensor[0]]` when `patch_size is None`, otherwise
`extract_patches(...)[0]` (complexities.py lines 58-63 and analogues).  When
only a size is configured the stride defaults to the size. -/
def getPatches (patch_size patch_stride : Option Nat) (img : Img) :
    Except String (List Img) :=
  match patch_size with
  | none => Except.ok [img]
  | some s => extract_patches img s (patch_stride.getD s)

/-- Error message of `torch.stack` on an empty tensor list. -/
def stackEmptyMsg : String := "stack expects a non-empty TensorList"

/-- Error message of `torch.stack` on tensors of unequal sizes. -/
def stackRaggedMsg : String := "stack expects each tensor to be equal size"

/-- Error message of the Python NameError that line 73/145/216 would raise
if the loop variable `patch` were never assigned. -/
def patchNameErrorMsg : String := "NameError: name patch is not defined"

/-- Model of `torch.stack(image_results)`: fails on an empty list and on
ragged per-image rows, otherwise returns the rows as a 2-D table. -/
def stackRows (rows : List (List ℚ)) : Except String (List (List ℚ)) :=
  match rows with
  | [] => Except.error stackEmptyMsg
  | r :: rs =>
    if rs.all (fun row => decide (row.length = r.length)) then
      Except.ok (r :: rs)
    else
      Except.error stackRaggedMsg

/-- Shared tail of the three backends (complexities.py lines 73, 145, 216):
`torch.stack(image_results) / (patch.shape[1] * patch.shape[2])`.  The stack
is evaluated first; the divisor then reuses the *last* value of the loop
variable `patch`, i.e. the last patch of the last image. -/
def stackAndNormalize (prows : List (List Img)) (rows : List (List ℚ)) :
    Except String (List (List ℚ)) :=
  match stackRows rows with
  | Except.error e => Except.error e
  | Except.ok t =>
    match prows.flatten.getLast? with
    | none => Except.error patchNameErrorMsg
    | some p =>
      Except.ok (t.map (fun r => r.map (fun x => x / ((p.height : ℚ) * p.width))))

/-- Model of `_compute_jpeg` (complexities.py lines 49-73).  The torchvision
codec `encode_jpeg` is opaque; `enc quality patch` is the encoded byte count.
`num_workers` only parameterizes the data loader and is unused.  The float16
rounding of `torch.tensor(..., dtype=torch.float16)` is not modelled; scores
stay exact rationals. -/
def _compute_jpeg (enc : Nat → Img → Nat) (ds : List Img) (quality : Nat)
    (patch_size patch_stride : Option Nat) (num_workers : Nat) :
    Except String (List (List ℚ)) :=
  match ds.mapM (getPatches patch_size patch_stride) with
  | Except.error e => Except.error e
  | Except.ok prows =>
    stackAndNormalize prows
      (prows.map (fun patches => patches.map (fun p => ((enc quality p : Nat) : ℚ))))

/-- Reflect-mode index extension used by `scipy.ndimage.convolve`
(boundary pattern `d c b a | a b c d | d c b a`). -/
def reflectIdx (N : Nat) (k : Int) : Nat :=
  if (k % (2 * (N : Int))).toNat < N then (k % (2 * (N : Int))).toNat
  else 2 * N - 1 - (k % (2 * (N : Int))).toNat

/-- Grayscale conversion `cv2.cvtColor(image, cv2.COLOR_BGR2GRAY)` applied to
the HWC float array (complexities.py line 107): coefficient 0.114 on channel
0, 0.587 on channel 1, 0.299 on channel 2. -/
def grayAt (p : Img) (i j : Nat) : ℚ :=
  (114 * p.px 0 i j + 587 * p.px 1 i j + 299 * p.px 2 i j) / 1000

/-- Grayscale value seen by the uniform `n × n` box kernel at window offset
`tu` around output position `(i, j)`, with reflect boundary handling and the
kernel centered at offset `n / 2`. -/
def winVal (p : Img) (n i j : Nat) (tu : Nat × Nat) : ℚ :=
  grayAt p (reflectIdx p.height ((i : Int) + tu.1 - ((n / 2 : Nat) : Int)))
    (reflectIdx p.width ((j : Int) + tu.2 - ((n / 2 : Nat) : Int)))

/-- Model of `calculate_pixel_variance` at one output position
(complexities.py lines 105-116): `variance = E[X^2] - (E[X])^2`, both
expectations being the same uniform box-filter convolution. -/
def varianceMapAt (p : Img) (n i j : Nat) : ℚ :=
  (∑ tu ∈ Finset.range n ×ˢ Finset.range n, (winVal p n i j tu) ^ 2) / ((n : ℚ) * n) -
    ((∑ tu ∈ Finset.range n ×ˢ Finset.range n, winVal p n i j tu) / ((n : ℚ) * n)) ^ 2

/-- Per-patch variance score `np.mean(variance_map)` (complexities.py
line 140): the mean of the local variance map over the patch. -/
def patchVariance (p : Img) (n : Nat) : ℚ :=
  (∑ i ∈ Finset.range p.height, ∑ j ∈ Finset.range p.width, varianceMapAt p n i j) /
    ((p.height : ℚ) * p.width)

/-- Model of `_compute_variance` (complexities.py lines 119-145). -/
def _compute_variance (ds : List Img) (patch_size patch_stride : Option Nat)
    (neighborhood_size : Nat) (num_workers : Nat) :
    Except String (List (List ℚ)) :=
  match ds.mapM (getPatches patch_size patch_stride) with
  | Except.error e => Except.error e
  | Except.ok prows =>
    stackAndNormalize prows
      (prows.map (fun patches => patches.map (fun p => patchVariance p neighborhood_size)))

/-- Parameter record passed to the external `MeaningfulComplexity` estimator
(complexities.py lines 268-276). -/
structure CompMeasParams where
  ncs_to_check : Nat
  n_cluster_inits : Nat
  nz : Nat
  num_levels : Nat
  cluster_model : String
  info_subsample : ℚ
  suppress_all_prints : Bool
deriving DecidableEq

/-- Per-patch meaningful-complexity score (complexities.py lines 203-212):
score 0 for a pixel-uniform patch, otherwise `np.sum` of the output of the
opaque external estimator `est`. -/
def meaningful_patch_score (est : CompMeasParams → Img → List ℚ)
    (params : CompMeasParams) (p : Img) : ℚ :=
  if isUniform p then 0 else (est params p).sum

/-- Model of `_compute_meaningful` (complexities.py lines 185-216), with the
external estimator `est` opaque. -/
def _compute_meaningful (est : CompMeasParams → Img → List ℚ)
    (comp_meas_params : CompMeasParams) (ds : List Img)
    (patch_size patch_stride : Option Nat) (num_workers : Nat) :
    Except String (List (List ℚ)) :=
  match ds.mapM (getPatches patch_size patch_stride) with
  | Except.error e => Except.error e
  | Except.ok prows =>
    stackAndNormalize prows
      (prows.map (fun patches =>
        patches.map (fun p => meaningful_patch_score est comp_meas_params p)))

/-- Constructed metric instances, mirroring the classes `JPEG`, `Variance`
and `Meaningful` with their stored constructor arguments. -/
inductive ComplexityMetric where
  | JPEG (quality : Int) (patch_size patch_stride : Option Nat) (num_workers : Nat)
  | Variance (patch_size patch_stride : Option Nat) (neighborhood_size : Nat)
      (num_workers : Nat)
  | Meaningful (comp_meas_params : CompMeasParams)
      (patch_size patch_stride : Option Nat) (num_workers : Nat)
deriving DecidableEq

/-- Python exception kinds that `complexity_from_config` can raise. -/
inductive PyErr where
  | notImplemented (msg : String)
  | valueError (msg : String)
deriving DecidableEq

/-- Split of a character list at every occurrence of `sep`, keeping empty
segments: the semantics of Python `str.split(sep)` for a one-character
separator. -/
def splitOnChar (sep : Char) : List Char → List (List Char)
  | [] => [[]]
  | x :: xs =>
    let r := splitOnChar sep xs
    if x = sep then [] :: r
    else
      match r with
      | [] => [[x]]
      | y :: ys => (x :: y) :: ys

/-- Digit-string value for the model of Python `int()`; `none` when the list
is empty or contains a non-digit. -/
def digitsVal (l : List Char) : Option Nat :=
  if l = [] then none
  else
    l.foldl
      (fun acc c =>
        acc.bind (fun n => if c.isDigit then some (n * 10 + (c.toNat - 48)) else none))
      (some 0)

/-- Model of Python `int(s)` on the inputs reachable from
`complexity_from_config`: an optional sign followed by decimal digits
(whitespace stripping and digit-group underscores are not modelled). -/
def pyInt (l : List Char) : Option Int :=
  match l with
  | '-' :: rest => (digitsVal rest).map (fun n => -(n : Int))
  | '+' :: rest => (digitsVal rest).map (fun n => (n : Int))
  | rest => (digitsVal rest).map (fun n => (n : Int))

/-- Fixed parameter set built for the `"meaningful"` configuration
(complexities.py lines 268-276). -/
def defaultCompMeasParams : CompMeasParams :=
  ⟨8, 1, 2, 4, "GMM", 3 / 10, true⟩

/-- Model of `complexity_from_config` (complexities.py lines 248-286).
Any string starting with `"jpeg"` goes through
`_, quality = config.split("_")` followed by `int(quality)`, so a malformed
jpeg config raises a ValueError (unpacking or literal parse) rather than the
final NotImplementedError.  `batch_size` is accepted and unused, as in the
source. -/
def complexity_from_config (config : String) (patch_size patch_stride : Option Nat)
    (batch_size num_workers : Nat) : Except PyErr ComplexityMetric :=
  if "jpeg".data.isPrefixOf config.data then
    match splitOnChar '_' config.data with
    | [_] => Except.error (.valueError "not enough values to unpack (expected 2, got 1)")
    | [_, q] =>
      match pyInt q with
      | some v => Except.ok (.JPEG v patch_size patch_stride num_workers)
      | none =>
        Except.error
          (.valueError ("invalid literal for int() with base 10: " ++ ⟨q⟩))
    | _ => Except.error (.valueError "too many values to unpack (expected 2)")
  else if config = "variance" then
    Except.ok (.Variance patch_size patch_stride 8 num_workers)
  else if config = "meaningful" then
    Except.ok (.Meaningful defaultCompMeasParams patch_size patch_stride num_workers)
  else
    Except.error (.notImplemented ("No matching complexity metric for " ++ config ++ "."))

/-- Association-list model of the joblib `Memory` cache directory. -/
def Cache (κ ν : Type) : Type := List (κ × ν)

/-- Lookup of a memoized value by key. -/
def cacheLookup {κ ν : Type} [DecidableEq κ] (c : Cache κ ν) (k : κ) : Option ν :=
  (c.find? (fun e => decide (e.1 = k))).map (fun e => e.2)

/-- Result of one call through the cache wrapper: the value, the cache state
afterwards, and whether the wrapped computation actually ran. -/
structure MemoResult (κ ν : Type) where
  value : ν
  cache : Cache κ ν
  ran : Bool

/-- Model of a `@mem.cache`-decorated call: return the stored value on a key
hit, otherwise run the function and store the result. -/
def memoCall {κ ν : Type} [DecidableEq κ] (f : κ → ν) (c : Cache κ ν) (k : κ) :
    MemoResult κ ν :=
  match cacheLookup c k with
  | some v => ⟨v, c, false⟩
  | none => ⟨f k, (k, f k) :: c, true⟩

/-- Cache key of `_compute_jpeg`: all arguments except the ignored
`num_workers` (complexities.py line 49). -/
structure JpegKey where
  ds : List Img
  quality : Nat
  patch_size : Option Nat
  patch_stride : Option Nat
deriving DecidableEq

/-- Cache key of `_compute_variance`: all arguments except the ignored
`num_workers` (complexities.py line 119). -/
structure VarKey where
  ds : List Img
  patch_size : Option Nat
  patch_stride : Option Nat
  neighborhood_size : Nat
deriving DecidableEq

/-- Cache key of `_compute_meaningful`: all arguments except the ignored
`num_workers` (complexities.py line 185). -/
structure MeanKey where
  ds : List Img
  comp_meas_params : CompMeasParams
  patch_size : Option Nat
  patch_stride : Option Nat
deriving DecidableEq

/-- Cached entry point of the JPEG backend. -/
def jpegCached (enc : Nat → Img → Nat) (c : Cache JpegKey (Except String (List (List ℚ))))
    (ds : List Img) (quality : Nat) (patch_size patch_stride : Option Nat)
    (num_workers : Nat) : MemoResult JpegKey (Except String (List (List ℚ))) :=
  memoCall (fun k => _compute_jpeg enc k.ds k.quality k.patch_size k.patch_stride num_workers)
    c ⟨ds, quality, patch_size, patch_stride⟩

/-- Cached entry point of the variance backend. -/
def varianceCached (c : Cache VarKey (Except String (List (List ℚ))))
    (ds : List Img) (patch_size patch_stride : Option Nat)
    (neighborhood_size num_workers : Nat) :
    MemoResult VarKey (Except String (List (List ℚ))) :=
  memoCall
    (fun k => _compute_variance k.ds k.patch_size k.patch_stride k.neighborhood_size num_workers)
    c ⟨ds, patch_size, patch_stride, neighborhood_size⟩

/-- Cached entry point of the meaningful backend. -/
def meaningfulCached (est : CompMeasParams → Img → List ℚ)
    (c : Cache MeanKey (Except String (List (List ℚ)))) (ds : List Img)
    (comp_meas_params : CompMeasParams) (patch_size patch_stride : Option Nat)
    (num_workers : Nat) : MemoResult MeanKey (Except String (List (List ℚ))) :=
  memoCall
    (fun k =>
      _compute_meaningful est k.comp_meas_params k.ds k.patch_size k.patch_stride num_workers)
    c ⟨ds, comp_meas_params, patch_size, patch_stride⟩

/-- Last path component, as `pathlib.Path(...).name`. -/
def lastComponent (s : String) : String :=
  ⟨((splitOnChar '/' s.data).getLastD s.data)⟩

/-- Download file name `download_dir / Path(url.split('?')[0]).name`
(images_to_dataset.py line 36). -/
def urlFilename (download_dir url : String) : String :=
  download_dir ++ "/" ++ lastComponent ⟨(splitOnChar '?' url.data).headD url.data⟩

/-- Model of `download_images` (images_to_dataset.py lines 8-46).  The HTTP
fetch plus file write is the opaque `fetch`; the pair holds the list of
successfully downloaded files and the log lines, one log line per URL. -/
def download_images (fetch : String → Except String Unit) (download_dir : String) :
    List String → List String × List String
  | [] => ([], [])
  | url :: rest =>
    let r := download_images fetch download_dir rest
    match fetch url with
    | Except.ok _ =>
      (urlFilename download_dir url :: r.1,
        ("Downloaded: " ++ urlFilename download_dir url) :: r.2)
    | Except.error e =>
      (r.1, ("Failed to download " ++ url ++ ": " ++ e) :: r.2)

/-- Size filter of `convert_and_filter_images` (images_to_dataset.py
lines 83-84): both criteria are checked only when configured. -/
def meetsCriteria (min_side max_pixels : Option Nat) (w h : Nat) : Bool :=
  (match min_side with
    | none => true
    | some m => decide (m ≤ min w h)) &&
  (match max_pixels with
    | none => true
    | some mp => decide (w * h ≤ mp))

/-- Output name `output_dir / input_file.with_suffix(".png").name`
(images_to_dataset.py line 97): the last dot-suffix of the file name is
replaced by `.png`. -/
def outputName (output_dir input_file : String) : String :=
  let name := (lastComponent input_file).data
  let parts := splitOnChar '.' name
  if parts.length ≤ 1 then output_dir ++ "/" ++ (⟨name⟩ : String) ++ ".png"
  else output_dir ++ "/" ++ (⟨(parts.dropLast.intersperse ['.']).flatten⟩ : String) ++ ".png"

/-- Model of `convert_and_filter_images` (images_to_dataset.py lines 49-107).
Opening and decoding the image is the opaque `load`, returning the
dimensions; a load failure models any exception inside the per-file `try`.
The pair holds the valid processed files and the log lines, one per input. -/
def convert_and_filter_images (load : String → Except String (Nat × Nat))
    (output_dir : String) (min_side max_pixels : Option Nat) (image_size : Nat) :
    List String → List String × List String
  | [] => ([], [])
  | f :: rest =>
    let r := convert_and_filter_images load output_dir min_side max_pixels image_size rest
    match load f with
    | Except.error e => (r.1, ("Failed to process " ++ f ++ ": " ++ e) :: r.2)
    | Except.ok wh =>
      if meetsCriteria min_side max_pixels wh.1 wh.2 then
        (outputName output_dir f :: r.1,
          ("Cropped, converted, and saved: " ++ outputName output_dir f) :: r.2)
      else
        (r.1, ("Skipped " ++ f) :: r.2)

/-- Modelled from the spec: per-patch normalization as the spec states it
(sections 3 and 9) — every score divided by its *own* patch's pixel area.
This is the refinement target the source's shared normalization tail is
compared against. -/
def jpegSpecScores (enc : Nat → Img → Nat) (ds : List Img) (quality : Nat)
    (patch_size patch_stride : Option Nat) : Except String (List (List ℚ)) :=
  match ds.mapM (getPatches patch_size patch_stride) with
  | Except.error e => Except.error e
  | Except.ok prows =>
    Except.ok
      (prows.map (fun patches =>
        patches.map (fun p => ((enc quality p : Nat) : ℚ) / ((p.height : ℚ) * p.width))))

/-- Constant-valued test image of the given shape. -/
def mkConstImg (channels h w : Nat) (v : ℚ) : Img :=
  ⟨channels, h, w,
    (List.range channels).map (fun _ =>
      (List.range h).map (fun _ => (List.range w).map (fun _ => v)))⟩

/-- Uniform 64 × 64 RGB test image. -/
def img64 : Img := mkConstImg 3 64 64 (1 / 2)

/-- Uniform 128 × 128 RGB test image. -/
def img128 : Img := mkConstImg 3 128 128 (1 / 2)

/-- Uniform 1 × 1 RGB test image. -/
def imgTiny : Img := mkConstImg 3 1 1 (1 / 4)

/-- Uniform 2 × 2 RGB test image. -/
def imgSmall : Img := mkConstImg 3 2 2 (3 / 4)

/-- Concrete stand-in codec for closed evaluations: byte count depending on
quality and patch shape. -/
def sampleEnc (quality : Nat) (p : Img) : Nat :=
  quality + p.height * p.width

/-- Concrete stand-in external estimator for closed evaluations. -/
def sampleEst (params : CompMeasParams) (p : Img) : List ℚ :=
  [(p.pixList.length : ℚ) + params.ncs_to_check]

/-- Predicate picking out the descriptive unrecognized-configuration error
of `complexity_from_config`. -/
def isDescriptiveError (r : Except PyErr ComplexityMetric) : Bool :=
  match r with
  | Except.error (.notImplemented _) => true
  | _ => false

/-- Folding the binary minimum only ever decreases the accumulator. -/
lemma foldl_min_le_init (xs : List ℚ) (a : ℚ) : xs.foldl min a ≤ a := by
  induction xs generalizing a with
  | nil => simp
  | cons x xs ih =>
    simp only [List.foldl]
    exact le_trans (ih (min a x)) (min_le_left a x)

/-- The fold of the binary minimum is below every list element. -/
lemma foldl_min_le_mem (xs : List ℚ) (a x : ℚ) (hx : x ∈ xs) : xs.foldl min a ≤ x := by
  induction xs generalizing a with
  | nil => cases hx
  | cons y ys ih =>
    simp only [List.foldl]
    rcases List.mem_cons.mp hx with h | h
    · subst h
      exact le_trans (foldl_min_le_init ys (min a x)) (min_le_right a x)
    · exact ih (min a y) h

/-- Folding the binary maximum only ever increases the accumulator. -/
lemma le_foldl_max_init (xs : List ℚ) (a : ℚ) : a ≤ xs.foldl max a := by
  induction xs generalizing a with
  | nil => simp
  | cons x xs ih =>
    simp only [List.foldl]
    exact le_trans (le_max_left a x) (ih (max a x))

/-- Every list element is below the fold of the binary maximum. -/
lemma mem_le_foldl_max (xs : List ℚ) (a x : ℚ) (hx : x ∈ xs) : x ≤ xs.foldl max a := by
  induction xs generalizing a with
  | nil => cases hx
  | cons y ys ih =>
    simp only [List.foldl]
    rcases List.mem_cons.mp hx with h | h
    · subst h
      exact le_trans (le_max_right a x) (le_foldl_max_init ys (max a x))
    · exact ih (max a y) h

/-- When the numpy minimum and maximum of a nonempty list agree, every
element equals that common value. -/
lemma all_eq_of_min_eq_max (a : ℚ) (xs : List ℚ)
    (h : xs.foldl min a = xs.foldl max a) :
    ∀ x ∈ a :: xs, x = xs.foldl min a := by
  intro x hx
  have h1 : xs.foldl min a ≤ x := by
    rcases List.mem_cons.mp hx with h | h
    · subst h; exact foldl_min_le_init xs x
    · exact foldl_min_le_mem xs a x h
  have h2 : x ≤ xs.foldl max a := by
    rcases List.mem_cons.mp hx with h | h
    · subst h; exact le_foldl_max_init xs x
    · exact mem_le_foldl_max xs a x h
  exact le_antisymm (h ▸ h2) h1

/-- A uniform patch (numpy min equals max) has all pixel values equal. -/
lemma isUniform_all_eq (p : Img) (hu : isUniform p = true) :
    ∀ x ∈ p.pixList, ∀ y ∈ p.pixList, x = y := by
  intro x hx y hy
  match hl : p.pixList with
  | [] => rw [hl] at hx; cases hx
  | a :: xs =>
    rw [hl] at hx hy
    have hmm : npMin (a :: xs) = npMax (a :: xs) := by
      unfold isUniform at hu
      rw [hl] at hu
      exact of_decide_eq_true hu
    have h : xs.foldl min a = xs.foldl max a := by
      simpa [npMin, npMax] using hmm
    rw [all_eq_of_min_eq_max a xs h x hx, all_eq_of_min_eq_max a xs h y hy]

/-- In a well-formed image, every in-range pixel access yields a member of
the flattened pixel list. -/
lemma px_mem_pixList (p : Img) (hwf : wellFormedImg p) {c i j : Nat}
    (hc : c < p.channels) (hi : i < p.height) (hj : j < p.width) :
    p.px c i j ∈ p.pixList := by
  obtain ⟨hlen, hall⟩ := hwf
  have hc' : c < p.pix.length := by rw [hlen]; exact hc
  have hch : p.pix.getD c [] ∈ p.pix := by
    rw [List.getD_eq_getElem _ _ hc']
    exact List.getElem_mem hc'
  obtain ⟨hchlen, hrows⟩ := hall _ hch
  have hi' : i < (p.pix.getD c []).length := by rw [hchlen]; exact hi
  have hrow : (p.pix.getD c []).getD i [] ∈ p.pix.getD c [] := by
    rw [List.getD_eq_getElem _ _ hi']
    exact List.getElem_mem hi'
  have hrl := hrows _ hrow
  have hj' : j < ((p.pix.getD c []).getD i []).length := by rw [hrl]; exact hj
  have hv : ((p.pix.getD c []).getD i []).getD j 0 ∈ (p.pix.getD c []).getD i [] := by
    rw [List.getD_eq_getElem _ _ hj']
    exact List.getElem_mem hj'
  unfold Img.px Img.pixList
  exact List.mem_flatten.mpr
    ⟨(p.pix.getD c []).getD i [], List.mem_flatten.mpr ⟨p.pix.getD c [], hch, hrow⟩, hv⟩

/-- Reflect-mode indices stay inside the valid index range. -/
lemma reflectIdx_lt (N : Nat) (hN : 0 < N) (k : Int) : reflectIdx N k < N := by
  unfold reflectIdx
  have h2 : k % (2 * (N : Int)) < 2 * (N : Int) :=
    Int.emod_lt_of_pos k (by positivity)
  have h0 : 0 ≤ k % (2 * (N : Int)) :=
    Int.emod_nonneg k (by positivity)
  split <;> omega

/-- Grayscale of a constant-valued well-formed RGB image is that constant. -/
lemma grayAt_const (p : Img) (c : ℚ) (hwf : wellFormedImg p) (hch : p.channels = 3)
    (hall : ∀ x ∈ p.pixList, x = c) {i j : Nat} (hi : i < p.height) (hj : j < p.width) :
    grayAt p i j = c := by
  have h0 : p.px 0 i j = c := hall _ (px_mem_pixList p hwf (by omega) hi hj)
  have h1 : p.px 1 i j = c := hall _ (px_mem_pixList p hwf (by omega) hi hj)
  have h2 : p.px 2 i j = c := hall _ (px_mem_pixList p hwf (by omega) hi hj)
  unfold grayAt
  rw [h0, h1, h2]
  have hsum : (114 : ℚ) * c + 587 * c + 299 * c = 1000 * c := by ring
  rw [hsum, mul_comm, mul_div_assoc]
  norm_num

/-- Every box-window sample of a constant-valued well-formed RGB patch is the
constant. -/
lemma winVal_const (p : Img) (c : ℚ) (hwf : wellFormedImg p) (hch : p.channels = 3)
    (hall : ∀ x ∈ p.pixList, x = c) (hh : 0 < p.height) (hw : 0 < p.width)
    (n i j : Nat) (tu : Nat × Nat) : winVal p n i j tu = c := by
  unfold winVal
  exact grayAt_const p c hwf hch hall (reflectIdx_lt _ hh _) (reflectIdx_lt _ hw _)

/-- Local variance `E[X^2] - (E[X])^2` is non-negative at every position. -/
lemma varianceMapAt_nonneg (p : Img) (n i j : Nat) : 0 ≤ varianceMapAt p n i j := by
  unfold varianceMapAt
  rcases Nat.eq_zero_or_pos n with hn | hn
  · subst hn; simp
  · set s : Finset (Nat × Nat) := Finset.range n ×ˢ Finset.range n with hs
    set S : ℚ := ∑ tu ∈ s, winVal p n i j tu with hS
    set Q : ℚ := ∑ tu ∈ s, (winVal p n i j tu) ^ 2 with hQ
    have hcard : (s.card : ℚ) = (n : ℚ) * n := by
      rw [hs, Finset.card_product, Finset.card_range]
      push_cast
      ring
    have hcs : S ^ 2 ≤ ((n : ℚ) * n) * Q := by
      rw [← hcard]
      exact sq_sum_le_card_mul_sum_sq
    have hm : (0 : ℚ) < (n : ℚ) * n := by
      have : (0 : ℚ) < (n : ℚ) := by exact_mod_cast hn
      positivity
    rw [sub_nonneg, div_pow, div_le_div_iff₀ (by positivity) hm]
    nlinarith [hcs, hm]

/-- Local variance vanishes everywhere on a uniform patch. -/
lemma varianceMapAt_const (p : Img) (c : ℚ) (n i j : Nat) (hn : 1 ≤ n)
    (hconst : ∀ tu ∈ Finset.range n ×ˢ Finset.range n, winVal p n i j tu = c) :
    varianceMapAt p n i j = 0 := by
  unfold varianceMapAt
  have h1 : ∑ tu ∈ Finset.range n ×ˢ Finset.range n, (winVal p n i j tu) ^ 2 =
      ∑ _tu ∈ Finset.range n ×ˢ Finset.range n, c ^ 2 :=
    Finset.sum_congr rfl (fun tu htu => by rw [hconst tu htu])
  have h2 : ∑ tu ∈ Finset.range n ×ˢ Finset.range n, winVal p n i j tu =
      ∑ _tu ∈ Finset.range n ×ˢ Finset.range n, c :=
    Finset.sum_congr rfl hconst
  rw [h1, h2, Finset.sum_const, Finset.sum_const, Finset.card_product, Finset.card_range,
    nsmul_eq_mul, nsmul_eq_mul]
  have hm : ((n : ℚ) * n) ≠ 0 := by
    have : (0 : ℚ) < (n : ℚ) := by exact_mod_cast hn
    positivity
  push_cast
  field_simp

/-- The per-patch variance score is non-negative. -/
lemma patchVariance_nonneg (p : Img) (n : Nat) : 0 ≤ patchVariance p n := by
  unfold patchVariance
  apply div_nonneg
  · exact Finset.sum_nonneg fun i _ =>
      Finset.sum_nonneg fun j _ => varianceMapAt_nonneg p n i j
  · positivity

/-- The per-patch variance score of a uniform well-formed RGB patch is 0. -/
lemma patchVariance_uniform_zero (p : Img) (n : Nat) (hwf : wellFormedImg p)
    (hch : p.channels = 3) (hh : 0 < p.height) (hw : 0 < p.width) (hn : 1 ≤ n)
    (hu : isUniform p = true) : patchVariance p n = 0 := by
  have hne : p.px 0 0 0 ∈ p.pixList := px_mem_pixList p hwf (by omega) hh hw
  have hall : ∀ x ∈ p.pixList, x = p.px 0 0 0 := fun x hx =>
    isUniform_all_eq p hu x hx _ hne
  unfold patchVariance
  rw [Finset.sum_congr rfl (fun i hi => Finset.sum_congr rfl (fun j hj =>
    varianceMapAt_const p (p.px 0 0 0) n i j hn
      (fun tu _ => winVal_const p _ hwf hch hall hh hw n i j tu)))]
  simp

/-- A freshly inserted cache entry is found by the next lookup. -/
lemma cacheLookup_insert {κ ν : Type} [DecidableEq κ] (c : Cache κ ν) (k : κ) (v : ν) :
    cacheLookup ((k, v) :: c) k = some v := by
  unfold cacheLookup
  rw [List.find?_cons_of_pos _ (by simp)]
  rfl

/-- A second memoized call with the same key returns the first call's value
and does not run the wrapped function, whatever function the second call
wraps. -/
lemma memoCall_hit_after {κ ν : Type} [DecidableEq κ] (f g : κ → ν) (c : Cache κ ν)
    (k : κ) :
    (memoCall g (memoCall f c k).cache k).value = (memoCall f c k).value ∧
      (memoCall g (memoCall f c k).cache k).ran = false := by
  unfold memoCall
  cases h : cacheLookup c k with
  | some v => simp [h]
  | none => simp [h, cacheLookup_insert]

/-- Characterization of `download_images`: the returned files are exactly
the successful fetches in URL order, and every URL produces one log line. -/
lemma download_images_spec (fetch : String → Except String Unit) (ddir : String)
    (urls : List String) :
    (download_images fetch ddir urls).1 =
        urls.filterMap (fun u =>
          match fetch u with
          | Except.ok _ => some (urlFilename ddir u)
          | Except.error _ => none) ∧
      (download_images fetch ddir urls).2.length = urls.length := by
  induction urls with
  | nil => simp [download_images]
  | cons u us ih =>
    cases h : fetch u with
    | ok v => simp [download_images, h, List.filterMap_cons, ih.1, ih.2]
    | error e => simp [download_images, h, List.filterMap_cons, ih.1, ih.2]

/-- Characterization of `convert_and_filter_images`: the returned files are
exactly the loadable inputs meeting the size criteria, in input order, and
every input produces one log line. -/
lemma convert_and_filter_images_spec (load : String → Except String (Nat × Nat))
    (odir : String) (min_side max_pixels : Option Nat) (image_size : Nat)
    (files : List String) :
    (convert_and_filter_images load odir min_side max_pixels image_size files).1 =
        files.filterMap (fun f =>
          match load f with
          | Except.ok wh =>
            if meetsCriteria min_side max_pixels wh.1 wh.2 then
              some (outputName odir f)
            else none
          | Except.error _ => none) ∧
      (convert_and_filter_images load odir min_side max_pixels image_size files).2.length =
        files.length := by
  induction files with
  | nil => simp [convert_and_filter_images]
  | cons f fs ih =>
    cases h : load f with
    | ok wh =>
      by_cases hc : meetsCriteria min_side max_pixels wh.1 wh.2
      · simp [convert_and_filter_images, h, hc, List.filterMap_cons, ih.1, ih.2]
      · simp [convert_and_filter_images, h, hc, List.filterMap_cons, ih.1, ih.2]
    | error e => simp [convert_and_filter_images, h, List.filterMap_cons, ih.1, ih.2]

/-- C1: the claim says every per-patch score is divided by that patch's own
pixel area.  The code instead divides the whole table by the area of the
last iterated patch: on the two-image dataset [1x1, 2x2] with no patching,
the 1x1 image's byte count 11 is divided by 4 (the 2x2 image's area), while
own-area normalization (the spec's stated intent, `jpegSpecScores`) divides
it by 1, and the two scores differ. -/
theorem jpeg_normalization_uses_last_patch_area :
    _compute_jpeg sampleEnc [imgTiny, imgSmall] 10 none none 0 =
        Except.ok [[((11 : Nat) : ℚ) / (((2 : Nat) : ℚ) * ((2 : Nat) : ℚ))],
          [((14 : Nat) : ℚ) / (((2 : Nat) : ℚ) * ((2 : Nat) : ℚ))]] ∧
      jpegSpecScores sampleEnc [imgTiny, imgSmall] 10 none none =
        Except.ok [[((11 : Nat) : ℚ) / (((1 : Nat) : ℚ) * ((1 : Nat) : ℚ))],
          [((14 : Nat) : ℚ) / (((2 : Nat) : ℚ) * ((2 : Nat) : ℚ))]] ∧
      ((11 : Nat) : ℚ) / (((2 : Nat) : ℚ) * ((2 : Nat) : ℚ)) ≠
        ((11 : Nat) : ℚ) / (((1 : Nat) : ℚ) * ((1 : Nat) : ℚ)) :=
  ⟨rfl, rfl, by norm_num⟩

/-- C2 counterexample: `complexity_from_config "jpeg"` (and `"jpeg_x"`) does
not raise the descriptive unrecognized-configuration error; it raises a
ValueError from tuple unpacking (resp. integer parsing). -/
theorem config_jpeg_malformed_not_descriptive :
    complexity_from_config "jpeg" none none 1 0 =
        Except.error (.valueError "not enough values to unpack (expected 2, got 1)") ∧
      isDescriptiveError (complexity_from_config "jpeg" none none 1 0) = false ∧
      complexity_from_config "jpeg_x" none none 1 0 =
        Except.error (.valueError "invalid literal for int() with base 10: x") ∧
      isDescriptiveError (complexity_from_config "jpeg_x" none none 1 0) = false :=
  ⟨rfl, rfl, rfl, rfl⟩

/-- C2 (amended): the descriptive unrecognized-configuration error is
raised exactly for the strings that do not start with `"jpeg"` and are
neither `"variance"` nor `"meaningful"`.  A string starting with `"jpeg"`
never produces the descriptive error: when it splits on every underscore
into exactly two parts whose second part parses as an integer the call
succeeds with that quality (this includes strings such as `"jpegs_10"`
that are not of the form `jpeg_<integer>`); when the split has one part
(such as `"jpeg"`) or more than two (such as `"jpeg_1_2"`) the call raises
the unpack ValueError, and when the second part is not an integer (such as
`"jpeg_x"`) it raises the int-parse ValueError. -/
theorem config_unrecognized_error_behavior :
    (∀ (config : String) (ps pstr : Option Nat) (bs nw : Nat),
        "jpeg".data.isPrefixOf config.data = false →
        config ≠ "variance" → config ≠ "meaningful" →
        complexity_from_config config ps pstr bs nw =
          Except.error
            (.notImplemented ("No matching complexity metric for " ++ config ++ "."))) ∧
      (∀ (config : String) (ps pstr : Option Nat) (bs nw : Nat),
        "jpeg".data.isPrefixOf config.data = true →
        isDescriptiveError (complexity_from_config config ps pstr bs nw) = false) ∧
      (∀ (config : String) (ps pstr : Option Nat) (bs nw : Nat) (a q : List Char) (v : Int),
        "jpeg".data.isPrefixOf config.data = true →
        splitOnChar '_' config.data = [a, q] → pyInt q = some v →
        complexity_from_config config ps pstr bs nw =
          Except.ok (.JPEG v ps pstr nw)) ∧
      (∀ (config : String) (ps pstr : Option Nat) (bs nw : Nat) (a q : List Char),
        "jpeg".data.isPrefixOf config.data = true →
        splitOnChar '_' config.data = [a, q] → pyInt q = none →
        complexity_from_config config ps pstr bs nw =
          Except.error
            (.valueError ("invalid literal for int() with base 10: " ++ (⟨q⟩ : String)))) ∧
      (∀ (config : String) (ps pstr : Option Nat) (bs nw : Nat),
        "jpeg".data.isPrefixOf config.data = true →
        (splitOnChar '_' config.data).length ≠ 2 →
        complexity_from_config config ps pstr bs nw =
          Except.error
            (.valueError
              (if (splitOnChar '_' config.data).length = 1 then
                "not enough values to unpack (expected 2, got 1)"
              else "too many values to unpack (expected 2)"))) ∧
      complexity_from_config "jpeg" none none 1 0 =
        Except.error (.valueError "not enough values to unpack (expected 2, got 1)") ∧
      complexity_from_config "jpeg_1_2" none none 1 0 =
        Except.error (.valueError "too many values to unpack (expected 2)") ∧
      complexity_from_config "jpeg_x" none none 1 0 =
        Except.error (.valueError "invalid literal for int() with base 10: x") ∧
      complexity_from_config "jpegs_10" none none 1 0 =
        Except.ok (.JPEG 10 none none 0) := by
  refine ⟨?_, ?_, ?_, ?_, ?_, rfl, rfl, rfl, rfl⟩
  · intro config ps pstr bs nw h1 h2 h3
    simp [complexity_from_config, h1, h2, h3]
  · intro config ps pstr bs nw hp
    unfold complexity_from_config
    rw [if_pos hp]
    split
    · rfl
    · split
      · rfl
      · rfl
    · rfl
  · intro config ps pstr bs nw a q v hp hs hv
    unfold complexity_from_config
    rw [if_pos hp, hs]
    simp [hv]
  · intro config ps pstr bs nw a q hp hs hv
    unfold complexity_from_config
    rw [if_pos hp, hs]
    simp [hv]
  · intro config ps pstr bs nw hp hlen
    unfold complexity_from_config
    rw [if_pos hp]
    cases hs : splitOnChar '_' config.data with
    | nil => simp
    | cons a tl =>
      cases tl with
      | nil => simp
      | cons q tl2 =>
        cases tl2 with
        | nil => rw [hs] at hlen; simp at hlen
        | cons r tl3 => simp

/-- Witness for C2: the amended theorem applied to the concrete
configuration strings "unknown" (descriptive error), "jpegs_10"
(jpeg-prefixed success despite not being of the form jpeg_<integer>) and
"jpeg_x" (jpeg-prefixed int-parse ValueError). -/
theorem config_unrecognized_error_behavior_witness :
    "jpeg".data.isPrefixOf "unknown".data = false ∧
      "unknown" ≠ "variance" ∧ "unknown" ≠ "meaningful" ∧
      complexity_from_config "unknown" none none 1 0 =
        Except.error
          (.notImplemented ("No matching complexity metric for " ++ "unknown" ++ ".")) ∧
      "jpeg".data.isPrefixOf "jpegs_10".data = true ∧
      splitOnChar '_' "jpegs_10".data = [['j', 'p', 'e', 'g', 's'], ['1', '0']] ∧
      pyInt ['1', '0'] = some 10 ∧
      complexity_from_config "jpegs_10" none none 1 0 =
        Except.ok (.JPEG 10 none none 0) ∧
      isDescriptiveError (complexity_from_config "jpegs_10" none none 1 0) = false ∧
      splitOnChar '_' "jpeg_x".data = [['j', 'p', 'e', 'g'], ['x']] ∧
      pyInt ['x'] = none ∧
      complexity_from_config "jpeg_x" none none 1 0 =
        Except.error
          (.valueError ("invalid literal for int() with base 10: " ++ (⟨['x']⟩ : String))) :=
  ⟨rfl, by decide, by decide,
    config_unrecognized_error_behavior.1 "unknown" none none 1 0 rfl
      (by decide) (by decide),
    rfl, rfl, rfl,
    config_unrecognized_error_behavior.2.2.1 "jpegs_10" none none 1 0
      ['j', 'p', 'e', 'g', 's'] ['1', '0'] 10 rfl rfl rfl,
    config_unrecognized_error_behavior.2.1 "jpegs_10" none none 1 0 rfl,
    rfl, rfl,
    config_unrecognized_error_behavior.2.2.2.1 "jpeg_x" none none 1 0
      ['j', 'p', 'e', 'g'] ['x'] rfl rfl rfl⟩

/-- C3 counterexample: on the dataset [64x64, 128x128] with patch size 32
and stride 32 the variance backend does not return a ragged two-row table;
stacking the per-image rows of 4 and 16 scores fails, so compute raises the
stack size-mismatch error. -/
theorem variance_ragged_dataset_stack_error :
    _compute_variance [img64, img128] (some 32) (some 32) 8 0 =
      Except.error stackRaggedMsg :=
  rfl

/-- C3 (amended): on that dataset the extracted patch lists do have 4 and 16
patches respectively (row-major), but `torch.stack` cannot stack the ragged
per-image score rows, so compute fails with the stack size-mismatch error
instead of returning a (2, N) ragged table. -/
theorem variance_ragged_counts_and_stack_error :
    Except.map List.length (getPatches (some 32) (some 32) img64) = Except.ok 4 ∧
      Except.map List.length (getPatches (some 32) (some 32) img128) = Except.ok 16 ∧
      _compute_variance [img64, img128] (some 32) (some 32) 8 0 =
        Except.error stackRaggedMsg :=
  ⟨rfl, rfl, rfl⟩

/-- C4: a pixel-uniform patch (numpy min equals max) gets meaningful score
exactly 0, the score stays 0 after any area normalization, the external
estimator is not consulted (the score does not depend on it), and the
returned table entry for a singleton dataset is exactly 0. -/
theorem meaningful_uniform_score_zero :
    ∀ (est₁ est₂ : CompMeasParams → Img → List ℚ) (params₁ params₂ : CompMeasParams)
      (p : Img) (nw : Nat),
      isUniform p = true →
      meaningful_patch_score est₁ params₁ p = 0 ∧
        meaningful_patch_score est₁ params₁ p = meaningful_patch_score est₂ params₂ p ∧
        _compute_meaningful est₁ params₁ [p] none none nw = Except.ok [[0]] := by
  intro est₁ est₂ params₁ params₂ p nw h
  have hs : ∀ (est : CompMeasParams → Img → List ℚ) (params : CompMeasParams),
      meaningful_patch_score est params p = 0 := by
    intro est params
    simp [meaningful_patch_score, h]
  refine ⟨hs est₁ params₁, by rw [hs, hs], ?_⟩
  have base : _compute_meaningful est₁ params₁ [p] none none nw =
      Except.ok [[meaningful_patch_score est₁ params₁ p / ((p.height : ℚ) * p.width)]] :=
    rfl
  rw [base, hs, zero_div]

/-- Witness for C4: the theorem applied to a concrete uniform 3-channel
2x2 patch with two different stand-in estimators. -/
theorem meaningful_uniform_score_zero_witness :
    isUniform (mkConstImg 3 2 2 5) = true ∧
      meaningful_patch_score sampleEst defaultCompMeasParams (mkConstImg 3 2 2 5) = 0 :=
  ⟨rfl,
    (meaningful_uniform_score_zero sampleEst (fun _ _ => [])
        defaultCompMeasParams defaultCompMeasParams (mkConstImg 3 2 2 5) 0 rfl).1⟩

/-- C5: for each backend, a second cached call with the identical dataset
and parameters returns the same result value and does not re-run the
wrapped computation. -/
theorem compute_cache_idempotent_all_backends :
    ∀ (enc : Nat → Img → Nat) (est : CompMeasParams → Img → List ℚ)
      (c₁ : Cache JpegKey (Except String (List (List ℚ))))
      (c₂ : Cache VarKey (Except String (List (List ℚ))))
      (c₃ : Cache MeanKey (Except String (List (List ℚ))))
      (ds : List Img) (quality : Nat) (ps pstr : Option Nat)
      (n : Nat) (params : CompMeasParams) (nw : Nat),
      ((jpegCached enc (jpegCached enc c₁ ds quality ps pstr nw).cache
            ds quality ps pstr nw).value =
          (jpegCached enc c₁ ds quality ps pstr nw).value ∧
        (jpegCached enc (jpegCached enc c₁ ds quality ps pstr nw).cache
            ds quality ps pstr nw).ran = false) ∧
      ((varianceCached (varianceCached c₂ ds ps pstr n nw).cache ds ps pstr n nw).value =
          (varianceCached c₂ ds ps pstr n nw).value ∧
        (varianceCached (varianceCached c₂ ds ps pstr n nw).cache ds ps pstr n nw).ran =
          false) ∧
      ((meaningfulCached est (meaningfulCached est c₃ ds params ps pstr nw).cache
            ds params ps pstr nw).value =
          (meaningfulCached est c₃ ds params ps pstr nw).value ∧
        (meaningfulCached est (meaningfulCached est c₃ ds params ps pstr nw).cache
            ds params ps pstr nw).ran = false) := by
  intro enc est c₁ c₂ c₃ ds quality ps pstr n params nw
  exact ⟨memoCall_hit_after _ _ c₁ _, memoCall_hit_after _ _ c₂ _,
    memoCall_hit_after _ _ c₃ _⟩

/-- C6: `num_workers` does not affect any backend's computed result, it is
excluded from every cache key, and a run with a different `num_workers`
value hits the cache entry written by the first run. -/
theorem num_workers_excluded_all_backends :
    ∀ (enc : Nat → Img → Nat) (est : CompMeasParams → Img → List ℚ)
      (c₁ : Cache JpegKey (Except String (List (List ℚ))))
      (c₂ : Cache VarKey (Except String (List (List ℚ))))
      (c₃ : Cache MeanKey (Except String (List (List ℚ))))
      (ds : List Img) (quality : Nat) (ps pstr : Option Nat)
      (n : Nat) (params : CompMeasParams) (nw₁ nw₂ : Nat),
      _compute_jpeg enc ds quality ps pstr nw₁ = _compute_jpeg enc ds quality ps pstr nw₂ ∧
      _compute_variance ds ps pstr n nw₁ = _compute_variance ds ps pstr n nw₂ ∧
      _compute_meaningful est params ds ps pstr nw₁ =
        _compute_meaningful est params ds ps pstr nw₂ ∧
      ((jpegCached enc (jpegCached enc c₁ ds quality ps pstr nw₁).cache
            ds quality ps pstr nw₂).value =
          (jpegCached enc c₁ ds quality ps pstr nw₁).value ∧
        (jpegCached enc (jpegCached enc c₁ ds quality ps pstr nw₁).cache
            ds quality ps pstr nw₂).ran = false) ∧
      ((varianceCached (varianceCached c₂ ds ps pstr n nw₁).cache ds ps pstr n nw₂).value =
          (varianceCached c₂ ds ps pstr n nw₁).value ∧
        (varianceCached (varianceCached c₂ ds ps pstr n nw₁).cache ds ps pstr n nw₂).ran =
          false) ∧
      ((meaningfulCached est (meaningfulCached est c₃ ds params ps pstr nw₁).cache
            ds params ps pstr nw₂).value =
          (meaningfulCached est c₃ ds params ps pstr nw₁).value ∧
        (meaningfulCached est (meaningfulCached est c₃ ds params ps pstr nw₁).cache
            ds params ps pstr nw₂).ran = false) := by
  intro enc est c₁ c₂ c₃ ds quality ps pstr n params nw₁ nw₂
  exact ⟨rfl, rfl, rfl, memoCall_hit_after _ _ c₁ _, memoCall_hit_after _ _ c₂ _,
    memoCall_hit_after _ _ c₃ _⟩

/-- C7: the dispatcher maps each recognized configuration string to the
matching constructed metric with the shared parameters passed through:
jpeg_75 and jpeg_50 to JPEG metrics with qualities 75 and 50, variance to a
Variance metric (default neighborhood 8), meaningful to a Meaningful metric
with the fixed parameter set. -/
theorem complexity_from_config_recognized :
    ∀ (ps pstr : Option Nat) (bs nw : Nat),
      complexity_from_config "jpeg_75" ps pstr bs nw =
          Except.ok (.JPEG 75 ps pstr nw) ∧
        complexity_from_config "jpeg_50" ps pstr bs nw =
          Except.ok (.JPEG 50 ps pstr nw) ∧
        complexity_from_config "variance" ps pstr bs nw =
          Except.ok (.Variance ps pstr 8 nw) ∧
        complexity_from_config "meaningful" ps pstr bs nw =
          Except.ok (.Meaningful defaultCompMeasParams ps pstr nw) :=
  fun ps pstr bs nw => ⟨rfl, rfl, rfl, rfl⟩

/-- C8: the per-patch variance score is non-negative for every patch and
neighborhood size, stays non-negative after any area normalization, and
equals 0 on a perfectly uniform (well-formed, 3-channel, nonempty) patch. -/
theorem variance_score_nonneg_and_uniform_zero :
    ∀ (p : Img) (n : Nat),
      0 ≤ patchVariance p n ∧
        (∀ m : Nat, 0 ≤ patchVariance p n / (m : ℚ)) ∧
        (wellFormedImg p → p.channels = 3 → 0 < p.height → 0 < p.width → 1 ≤ n →
          isUniform p = true → patchVariance p n = 0) := by
  intro p n
  refine ⟨patchVariance_nonneg p n, ?_, ?_⟩
  · intro m
    exact div_nonneg (patchVariance_nonneg p n) (by positivity)
  · intro hwf hch hh hw hn hu
    exact patchVariance_uniform_zero p n hwf hch hh hw hn hu

set_option maxRecDepth 4000 in
/-- Witness for C8: the theorem applied to a concrete uniform 3-channel
2x2 patch with neighborhood size 2. -/
theorem variance_score_nonneg_and_uniform_zero_witness :
    wellFormedImg (mkConstImg 3 2 2 5) ∧ (mkConstImg 3 2 2 5).channels = 3 ∧
      0 < (mkConstImg 3 2 2 5).height ∧ 0 < (mkConstImg 3 2 2 5).width ∧
      (1 : Nat) ≤ 2 ∧ isUniform (mkConstImg 3 2 2 5) = true ∧
      0 ≤ patchVariance (mkConstImg 3 2 2 5) 2 ∧
      patchVariance (mkConstImg 3 2 2 5) 2 = 0 :=
  ⟨by decide, rfl, by decide, by decide, by decide, rfl,
    (variance_score_nonneg_and_uniform_zero (mkConstImg 3 2 2 5) 2).1,
    (variance_score_nonneg_and_uniform_zero (mkConstImg 3 2 2 5) 2).2.2
      (by decide) rfl (by decide) (by decide) (by decide) rfl⟩

/-- C9: in the utility script, each per-URL download failure and each
per-file conversion failure is skipped individually: the returned lists are
exactly the successful items in input order (failed items excluded, later
items still processed), and every item produces a log line. -/
theorem scripts_skip_failed_items :
    ∀ (fetch : String → Except String Unit) (load : String → Except String (Nat × Nat))
      (ddir odir : String) (min_side max_pixels : Option Nat) (image_size : Nat)
      (urls files : List String),
      (download_images fetch ddir urls).1 =
          urls.filterMap (fun u =>
            match fetch u with
            | Except.ok _ => some (urlFilename ddir u)
            | Except.error _ => none) ∧
        (download_images fetch ddir urls).2.length = urls.length ∧
        (convert_and_filter_images load odir min_side max_pixels image_size files).1 =
          files.filterMap (fun f =>
            match load f with
            | Except.ok wh =>
              if meetsCriteria min_side max_pixels wh.1 wh.2 then
                some (outputName odir f)
              else none
            | Except.error _ => none) ∧
        (convert_and_filter_images load odir min_side max_pixels image_size files).2.length =
          files.length := by
  intro fetch load ddir odir min_side max_pixels image_size urls files
  exact ⟨(download_images_spec fetch ddir urls).1,
    (download_images_spec fetch ddir urls).2,
    (convert_and_filter_images_spec load odir min_side max_pixels image_size files).1,
    (convert_and_filter_images_spec load odir min_side max_pixels image_size files).2⟩

/-- C10 counterexample: on the empty dataset every backend fails, but with
the empty-stack error of `torch.stack([])`, which is evaluated before the
normalization divisor ever references the loop variable `patch`; the
failure is not the undefined-patch NameError the claim attributes it to. -/
theorem empty_dataset_error_is_stack_error :
    _compute_jpeg sampleEnc [] 50 none none 0 = Except.error stackEmptyMsg ∧
      _compute_variance [] none none 8 0 = Except.error stackEmptyMsg ∧
      _compute_meaningful sampleEst defaultCompMeasParams [] none none 0 =
        Except.error stackEmptyMsg ∧
      stackEmptyMsg ≠ patchNameErrorMsg :=
  ⟨rfl, rfl, rfl, by decide⟩

/-- C10 (amended): for the empty dataset, every metric backend's compute
fails with an error (the empty-stack error) rather than returning an empty
score table, for all parameter values; the stack of zero per-image rows
fails before the last-patch normalization divisor is evaluated. -/
theorem empty_dataset_compute_errors :
    ∀ (enc : Nat → Img → Nat) (est : CompMeasParams → Img → List ℚ)
      (params : CompMeasParams) (quality : Nat) (ps pstr : Option Nat) (n nw : Nat),
      _compute_jpeg enc [] quality ps pstr nw = Except.error stackEmptyMsg ∧
        _compute_variance [] ps pstr n nw = Except.error stackEmptyMsg ∧
        _compute_meaningful est params [] ps pstr nw = Except.error stackEmptyMsg :=
  fun _ _ _ _ _ _ _ _ => ⟨rfl, rfl, rfl⟩
